import Mathlib

/-!
Shallow embedding of the `image-to-text` Cloudflare Worker request handler.

The repository contains two near-duplicate variants of the same handler:
- the "binding" variant (src/unnamed/part_000, first document), which base64-decodes
  the image and calls `env.AI.run(modelId, aiInput)` with a hard-coded `max_tokens: 512`;
- the "raw-HTTPS" variant (src/src/index.js and the second document of part_000),
  which forwards the data-URI string unchanged in a `fetch` to the Cloudflare AI URL.

JSON values are modelled as an inductive type; JavaScript exceptions as an explicit
`thrown` outcome; the downstream call as a function parameter so that the input the
handler passes downstream is observable.
-/

namespace ImageToText

/-- JSON value, the result of `JSON.parse` on a request or downstream body.
Numbers are modelled as integers (every number the handler inspects is
used only for truthiness or forwarded opaquely). -/
inductive Json where
  | null
  | bool (b : Bool)
  | num (n : Int)
  | str (s : String)
  | arr (elems : List Json)
  | obj (fields : List (String × Json))

/-- JavaScript truthiness of a JSON value: `null`, `false`, `0` and `""` are
falsy; every array and object is truthy. -/
def truthy : Json → Bool
  | .null => false
  | .bool b => b
  | .num n => if n = 0 then false else true
  | .str s => if s = "" then false else true
  | .arr _ => true
  | .obj _ => true

/-- Property lookup in an object's field list (fields are assumed distinct,
as produced by `JSON.parse`). -/
def lookupField : List (String × Json) → String → Option Json
  | [], _ => none
  | (k, v) :: rest, key => if k = key then some v else lookupField rest key

/-- JavaScript property access `j[key]` for the accesses the handler performs:
an object yields its field (or `undefined` = `none`); any non-object yields
`undefined`. (`null.key` throws, but every access to a possibly-null value in
the source is either guarded by `?.` or handled explicitly at the call site.) -/
def getField (j : Json) (key : String) : Option Json :=
  match j with
  | .obj fs => lookupField fs key
  | _ => none

/-- Truthiness of a possibly-`undefined` JavaScript value. -/
def truthyOpt : Option Json → Bool
  | none => false
  | some v => truthy v

mutual

/-- Template-literal stringification `${v}` of a JSON value, following
JavaScript `ToString`: arrays join their elements with `,` (with `null`
elements rendered empty), plain objects render as `[object Object]`. -/
def templateStr : Json → String
  | .null => "null"
  | .bool true => "true"
  | .bool false => "false"
  | .num n => toString n
  | .str s => s
  | .obj _ => "[object Object]"
  | .arr xs => joinedElems xs

/-- Comma-joined element rendering used by `Array.prototype.toString`;
`null` elements render as the empty string. -/
def joinedElems : List Json → String
  | [] => ""
  | [.null] => ""
  | [v] => templateStr v
  | .null :: xs => "," ++ joinedElems xs
  | v :: xs => templateStr v ++ "," ++ joinedElems xs

end

/-- JavaScript `s.startsWith(pat)`. -/
def jsStartsWith (s pat : String) : Bool := pat.data.isPrefixOf s.data

/-- Splitter on the leftmost, non-overlapping occurrences of a separator,
with a fuel argument (one unit per consumed character) so that it reduces
structurally. -/
def splitFuel (sep : List Char) : Nat → List Char → List (List Char)
  | _, [] => [[]]
  | 0, cs => [cs]
  | fuel + 1, c :: rest =>
    if sep.isPrefixOf (c :: rest) && !sep.isEmpty then
      [] :: splitFuel sep fuel ((c :: rest).drop sep.length)
    else
      match splitFuel sep fuel rest with
      | [] => [[c]]
      | piece :: pieces => (c :: piece) :: pieces

/-- JavaScript `s.split(sep)` for a non-empty separator string. -/
def jsSplit (s sep : String) : List String :=
  (splitFuel sep.data s.data.length s.data).map String.mk

/-- JavaScript `s.includes(pat)` for a non-empty pattern: the split produces
more than one piece exactly when the pattern occurs. -/
def containsSubstr (s pat : String) : Bool := (jsSplit s pat).length ≥ 2

/-! ### The `atob` forgiving-base64 decoder

The binding variant decodes the base64 payload with the Web platform's `atob`
and turns the resulting binary string into bytes with
`Uint8Array.from(binaryString, (char) => char.charCodeAt(0))`; since `atob`
yields characters U+0000..U+00FF, the bytes are exactly the decoded octets,
so `atob` is modelled as producing the byte list directly. -/

/-- ASCII whitespace stripped by forgiving-base64 decode (tab, LF, FF, CR, space). -/
def isB64Whitespace (c : Char) : Bool :=
  c.toNat = 9 || c.toNat = 10 || c.toNat = 12 || c.toNat = 13 || c.toNat = 32

/-- Value of a base64 alphabet character, `none` for anything else. -/
def b64CharVal (c : Char) : Option Nat :=
  if 'A' ≤ c ∧ c ≤ 'Z' then some (c.toNat - 'A'.toNat)
  else if 'a' ≤ c ∧ c ≤ 'z' then some (c.toNat - 'a'.toNat + 26)
  else if '0' ≤ c ∧ c ≤ '9' then some (c.toNat - '0'.toNat + 52)
  else if c = '+' then some 62
  else if c = '/' then some 63
  else none

/-- Padding removal of forgiving-base64 decode: when the length is a multiple
of four, up to two trailing `=` are dropped. -/
def stripB64Padding (cs : List Char) : List Char :=
  if cs.length % 4 = 0 then
    match cs.reverse with
    | '=' :: '=' :: rest => rest.reverse
    | '=' :: rest => rest.reverse
    | _ => cs
  else cs

/-- Core base64 decode on sextet values: full chunks of four yield three
bytes; a trailing chunk of two or three yields one or two bytes (spare low
bits discarded, as forgiving-base64 does); a trailing chunk of one is an
error. -/
def b64DecodeVals : List Nat → Option (List Nat)
  | [] => some []
  | [_] => none
  | [a, b] => some [a * 4 + b / 16]
  | [a, b, c] => some [a * 4 + b / 16, b % 16 * 16 + c / 4]
  | a :: b :: c :: d :: rest =>
    match b64DecodeVals rest with
    | none => none
    | some tail => some ((a * 4 + b / 16) :: (b % 16 * 16 + c / 4) :: (c % 4 * 64 + d) :: tail)

/-- The Web platform's `atob`: forgiving-base64 decode. Whitespace is
stripped, then padding; a remaining length of 1 mod 4 or any character
outside the base64 alphabet is an error (in the worker the thrown
`InvalidCharacterError` is caught and mapped to a 400 response, so `none`
suffices as the error value). -/
def atob (s : String) : Option (List Nat) :=
  let cs := stripB64Padding (s.data.filter (fun c => !isB64Whitespace c))
  if cs.length % 4 = 1 then none
  else
    match cs.mapM b64CharVal with
    | none => none
    | some vals => b64DecodeVals vals

/-! ### Requests, responses and thrown errors -/

/-- An inbound HTTP request as the handler observes it: its method, and the
result of `await request.json()` — `none` when the body is not parseable
JSON (the thrown `SyntaxError` is caught and never inspected). -/
structure Request where
  method : String
  body : Option Json

/-- A thrown JavaScript value, as far as the handler inspects one: either a
string primitive (`typeof error === 'string'`), or anything else, carrying
the value of its `message` property (`none` when that property is absent
or the value is a non-string primitive without one). -/
inductive JsErr where
  | strVal (s : String)
  | errObj (message : Option Json)

/-- Body of a constructed `Response`: absent (`null`), plain text, or the
`JSON.stringify` rendering of a JSON value. -/
inductive BodyVal where
  | empty
  | text (s : String)
  | json (j : Json)

/-- An outbound HTTP response: status, the explicitly set headers (in the
order the source lists them), and the body. -/
structure Response where
  status : Nat := 200
  headers : List (String × String) := []
  body : BodyVal := .empty

/-- Result of running the handler on a request: a response, or an uncaught
thrown error. -/
inductive Outcome where
  | response (r : Response)
  | thrown (e : JsErr)

/-- Headers of the CORS-preflight response, as listed in the source. -/
def corsPreflightHeaders : List (String × String) :=
  [("Access-Control-Allow-Origin", "*"),
   ("Access-Control-Allow-Methods", "POST, OPTIONS"),
   ("Access-Control-Allow-Headers", "Content-Type"),
   ("Access-Control-Max-Age", "86400")]

/-- Headers every JSON response in the source sets, in source order. -/
def jsonHeaders : List (String × String) :=
  [("Content-Type", "application/json"), ("Access-Control-Allow-Origin", "*")]

/-- Body `JSON.stringify({ message: m })`. -/
def msgBody (m : String) : BodyVal := .json (.obj [("message", .str m)])

/-- A JSON `{ message: m }` response with the standard headers. -/
def jsonMessageResponse (status : Nat) (m : String) : Response :=
  { status := status, headers := jsonHeaders, body := msgBody m }

/-- Response to a CORS preflight: `new Response(null, { headers })`, status
defaulting to 200. -/
def preflightResponse : Response :=
  { status := 200, headers := corsPreflightHeaders, body := .empty }

/-- Response to a non-POST, non-OPTIONS method: plain text, no headers set. -/
def methodNotAllowedResponse : Response :=
  { status := 405, headers := [], body := .text "Method Not Allowed" }

/-- The 400 response for an unparsable JSON body. -/
def invalidJsonResponse : Response :=
  jsonMessageResponse 400 "Invalid JSON in request body"

/-- The 400 response when `image` or `prompt` is missing or falsy. -/
def missingFieldResponse : Response :=
  jsonMessageResponse 400 "Missing image (base64 data URI) or prompt in request body"

/-- The 400 response when the image string fails the data-URI shape check. -/
def invalidFormatResponse : Response :=
  jsonMessageResponse 400
    "Invalid image format. Must be a base64 Data URI (e.g., data:image/jpeg;base64,...)"

/-- The 400 response of the binding variant when `atob` throws. -/
def decodeFailResponse : Response :=
  jsonMessageResponse 400 "Failed to decode base64 image data."

/-- The 200 response relaying a downstream JSON result. -/
def successResponse (aiResult : Json) : Response :=
  { status := 200, headers := jsonHeaders, body := .json aiResult }

/-- TypeError thrown by `const { image, prompt } = requestData` when
`requestData` is `null` (message as V8 words it; only the fact that the
handler throws matters to the development). -/
def destructureNullError : JsErr :=
  .errObj (some (.str "Cannot destructure property 'image' of 'requestData' as it is null."))

/-- TypeError thrown by `image.startsWith(...)` when `image` is a truthy
non-string (numbers, booleans, arrays and objects have no such method). -/
def startsWithTypeError : JsErr :=
  .errObj (some (.str "image.startsWith is not a function"))

/-- Data-URI shape check. The source rejects when
`!image.startsWith('data:image/') || !image.includes(';base64,')`; this is
the (de Morgan) condition under which it proceeds. -/
def formatOk (s : String) : Bool :=
  jsStartsWith s "data:image/" && containsSubstr s ";base64,"

/-! ### The handler, shared first half

Both variants are textually identical from the preflight check through the
data-URI format check (src/src/index.js lines 4-55, src/unnamed/part_000
lines 15-67 and 136-192); `validateCommon` embeds that shared half once and
yields the validated `(prompt, image)` pair handed to the variant-specific
second half. -/

/-- Result of a stage of the handler: an early response, an uncaught thrown
error, or the value passed on to the next stage. -/
inductive Step (α : Type) where
  | response (r : Response)
  | thrown (e : JsErr)
  | next (a : α)

/-- Steps 1-5 of both handler variants: preflight, method gate, JSON body
parse, `const { image, prompt }` destructuring (throws on a `null` body),
field-presence check (`!image || !prompt`), and the data-URI format check
(`image.startsWith` throws when `image` is a truthy non-string). On
success it passes on the `prompt` value and the image string. -/
def validateCommon (req : Request) : Step (Json × String) :=
  if req.method = "OPTIONS" then
    .response preflightResponse
  else if req.method ≠ "POST" then
    .response methodNotAllowedResponse
  else
    match req.body with
    | none => .response invalidJsonResponse
    | some requestData =>
      match requestData with
      | .null => .thrown destructureNullError
      | _ =>
        let image := getField requestData "image"
        let prompt := getField requestData "prompt"
        if !truthyOpt image || !truthyOpt prompt then
          .response missingFieldResponse
        else
          match image with
          | some (.str s) =>
            if formatOk s then .next ((prompt.getD .null), s)
            else .response invalidFormatResponse
          | _ => .thrown startsWithTypeError

/-! ### Binding variant (`env.AI.run`), src/unnamed/part_000 lines 69-128 -/

/-- The `aiInput` object the binding variant passes to `env.AI.run`: one
user message (role, prompt as content, decoded image bytes) and a
`max_tokens` field the source hard-codes to 512. -/
structure AiInput where
  role : String
  content : Json
  image : List Nat
  max_tokens : Int

/-- Pre-downstream part of the binding variant: shared validation, then
`const base64Data = image.split(',')[1]` and the `atob` decode, a failure
of which yields the 400 decode-failure response. On success the `aiInput`
value passed to `env.AI.run` is handed on. -/
def bindingStage (req : Request) : Step AiInput :=
  match validateCommon req with
  | .response r => .response r
  | .thrown e => .thrown e
  | .next (prompt, image) =>
    match atob ((jsSplit image ",").getD 1 "") with
    | none => .response decodeFailResponse
    | some bytes =>
      .next { role := "user", content := prompt, image := bytes, max_tokens := 512 }

/-- Message `AI model error: <errorMessage>` of the binding variant's catch
block: a thrown string is used as is; otherwise `error.message ||
'Unknown error from Cloudflare AI binding'`, template-stringified. -/
def bindingErrMsg : JsErr → String
  | .strVal s => s
  | .errObj none => "Unknown error from Cloudflare AI binding"
  | .errObj (some m) =>
    if truthy m then templateStr m else "Unknown error from Cloudflare AI binding"

/-- The 500 response of the binding variant when `env.AI.run` throws. -/
def bindingErrorResponse (e : JsErr) : Response :=
  jsonMessageResponse 500 ("AI model error: " ++ bindingErrMsg e)

/-- Response the binding variant's try/catch produces from the settled
`env.AI.run` call: relay the result on success, the 500 AI-model-error
response when it threw. -/
def bindingDownstream (result : Except JsErr Json) : Response :=
  match result with
  | .ok aiResult => successResponse aiResult
  | .error e => bindingErrorResponse e

/-- The complete binding-variant handler, parameterised by the behaviour of
`env.AI.run` on the input it receives (`Except.error` models a thrown
rejection). -/
def bindingFetch (req : Request) (run : AiInput → Except JsErr Json) : Outcome :=
  match bindingStage req with
  | .response r => .response r
  | .thrown e => .thrown e
  | .next aiInput => .response (bindingDownstream (run aiInput))

/-! ### Raw-HTTPS variant (`fetch` to the Cloudflare AI URL), src/src/index.js
lines 57-121 -/

/-- The one user message of the `aiPayload` the raw variant sends: role,
prompt as content, and the original data-URI string unchanged. No
`max_tokens` field exists in this payload. -/
structure RawPayload where
  role : String
  content : Json
  image : String

/-- Pre-downstream part of the raw variant: shared validation, then the
payload is built directly — no decoding step. -/
def rawStage (req : Request) : Step RawPayload :=
  match validateCommon req with
  | .response r => .response r
  | .thrown e => .thrown e
  | .next (prompt, image) =>
    .next { role := "user", content := prompt, image := image }

/-- The downstream `fetch` response as the raw variant observes it: the
HTTP status, and the result of `await aiResponse.json()` — `Except.error`
when the body is not parseable JSON and `json()` rejects. -/
structure FetchResponse where
  status : Nat
  jsonBody : Except JsErr Json

/-- `aiResponse.ok`: status in the 2xx range. -/
def respOk (r : FetchResponse) : Bool := 200 ≤ r.status && r.status < 300

/-- Details `errorData.errors?.[0]?.message || 'Unknown error from
Cloudflare AI'` of the raw variant's non-ok branch, template-stringified.
The optional chain yields `undefined` (`none`) when `errors` is absent,
not indexable, or its first entry lacks a `message` property. -/
def rawErrMsg (errorData : Json) : String :=
  let m := ((getField errorData "errors").bind fun errs =>
    match errs with
    | .arr (first :: _) => some first
    | _ => none).bind fun first => getField first "message"
  match m with
  | some v => if truthy v then templateStr v else "Unknown error from Cloudflare AI"
  | none => "Unknown error from Cloudflare AI"

/-- The raw variant's response to a non-ok downstream status with JSON
error payload: the downstream's own status is passed through. -/
def rawErrorResponse (status : Nat) (errorData : Json) : Response :=
  jsonMessageResponse status ("AI model error: " ++ rawErrMsg errorData)

/-- The value of the `message` property of a thrown value (`none` =
`undefined`; string primitives have none of interest here). -/
def errMessageProp : JsErr → Option Json
  | .strVal _ => none
  | .errObj m => m

/-- The raw variant's catch-block response:
`{ message: 'Internal server error while processing request', error:
error.message }` — `JSON.stringify` drops the `error` key when
`error.message` is `undefined`. -/
def internalErrorResponse (e : JsErr) : Response :=
  { status := 500, headers := jsonHeaders,
    body := .json (.obj
      (("message", Json.str "Internal server error while processing request") ::
        (match errMessageProp e with
         | none => []
         | some m => [("error", m)]))) }

/-- TypeError thrown by `errorData.errors?.[0]?.message` when `errorData`
itself is `null` (the leading `errorData.errors` access is unguarded). -/
def errorsOfNullError : JsErr :=
  .errObj (some (.str "Cannot read properties of null (reading 'errors')"))

/-- Response the raw variant's try/catch produces from the settled
downstream `fetch`: a rejected fetch or a rejecting `json()` lands in the
catch block (internal 500); a non-ok status with JSON error payload is
passed through as the AI-model-error response with the downstream's own
status (a `null` payload makes the unguarded `errorData.errors` access
throw, also landing in the catch block); an ok status relays the JSON
result. -/
def rawDownstream (result : Except JsErr FetchResponse) : Response :=
  match result with
  | .error e => internalErrorResponse e
  | .ok aiResponse =>
    if respOk aiResponse then
      match aiResponse.jsonBody with
      | .error e => internalErrorResponse e
      | .ok aiResult => successResponse aiResult
    else
      match aiResponse.jsonBody with
      | .error e => internalErrorResponse e
      | .ok .null => internalErrorResponse errorsOfNullError
      | .ok errorData => rawErrorResponse aiResponse.status errorData

/-- The complete raw-variant handler, parameterised by the behaviour of the
downstream `fetch` on the payload it receives (`Except.error` models a
rejected fetch, e.g. a network fault). -/
def rawFetch (req : Request) (doFetch : RawPayload → Except JsErr FetchResponse) :
    Outcome :=
  match rawStage req with
  | .response r => .response r
  | .thrown e => .thrown e
  | .next aiPayload => .response (rawDownstream (doFetch aiPayload))

/-- Modelled from the spec's words for the transcoding step: "the substring
of the image string after the first comma" (everything following the first
comma, commas included). The source instead takes `image.split(',')[1]`,
the piece between the first and second comma; the two differ whenever the
image string contains a second comma. -/
def specSubstrAfterFirstComma (s : String) : String :=
  String.intercalate "," ((jsSplit s ",").tail)

/-! ### Theorems -/

/-- Responses the shared validation half can produce. -/
theorem validateCommon_response_cases (req : Request) (r : Response)
    (h : validateCommon req = .response r) :
    r = preflightResponse ∨ r = methodNotAllowedResponse ∨ r = invalidJsonResponse ∨
      r = missingFieldResponse ∨ r = invalidFormatResponse := by
  unfold validateCommon at h
  split at h <;> try simp_all
  split at h <;> try simp_all
  split at h <;> try simp_all
  split at h <;> try simp_all
  split at h <;> try simp_all
  split at h <;> try simp_all
  split at h <;> simp_all

/-- Responses the binding variant can produce before reaching `env.AI.run`. -/
theorem bindingStage_response_cases (req : Request) (r : Response)
    (h : bindingStage req = .response r) :
    r = preflightResponse ∨ r = methodNotAllowedResponse ∨ r = invalidJsonResponse ∨
      r = missingFieldResponse ∨ r = invalidFormatResponse ∨ r = decodeFailResponse := by
  unfold bindingStage at h
  rcases hv : validateCommon req with r0 | e0 | pi <;> rw [hv] at h
  · injection h with h
    subst h
    have := validateCommon_response_cases req r0 hv
    tauto
  · simp at h
  · obtain ⟨prompt, image⟩ := pi
    split at h <;> try simp_all
    split at h
    · injection h with h
      subst h
      tauto
    · simp at h

/-- Responses the raw variant can produce before reaching the downstream
`fetch`. -/
theorem rawStage_response_cases (req : Request) (r : Response)
    (h : rawStage req = .response r) :
    r = preflightResponse ∨ r = methodNotAllowedResponse ∨ r = invalidJsonResponse ∨
      r = missingFieldResponse ∨ r = invalidFormatResponse := by
  unfold rawStage at h
  rcases hv : validateCommon req with r0 | e0 | pi <;> rw [hv] at h
  · injection h with h
    subst h
    exact validateCommon_response_cases req r0 hv
  · simp at h
  · obtain ⟨prompt, image⟩ := pi
    split at h <;> simp_all

/-- Every response the binding variant builds from a settled downstream
call carries the standard JSON headers. -/
theorem bindingDownstream_headers (result : Except JsErr Json) :
    (bindingDownstream result).headers = jsonHeaders := by
  rcases result with e | j <;> rfl

/-- Every response the raw variant builds from a settled downstream fetch
carries the standard JSON headers. -/
theorem rawDownstream_headers (result : Except JsErr FetchResponse) :
    (rawDownstream result).headers = jsonHeaders := by
  rcases result with e | resp
  · rfl
  · by_cases hok : respOk resp = true
    · rcases hjb : resp.jsonBody with e | j <;>
        simp [rawDownstream, hok, hjb, internalErrorResponse, successResponse]
    · rcases hjb : resp.jsonBody with e | j
      · simp [rawDownstream, hok, hjb, internalErrorResponse]
      · cases j <;>
          simp [rawDownstream, hok, hjb, internalErrorResponse, rawErrorResponse,
            jsonMessageResponse]

/-- C5: for every OPTIONS request, regardless of its body, both handler
variants return an empty body with exactly the four CORS headers
`Access-Control-Allow-Origin: *`, `Access-Control-Allow-Methods: POST,
OPTIONS`, `Access-Control-Allow-Headers: Content-Type` and
`Access-Control-Max-Age: 86400`. -/
theorem c5_preflight_exact_headers (req : Request)
    (run : AiInput → Except JsErr Json)
    (doFetch : RawPayload → Except JsErr FetchResponse)
    (h : req.method = "OPTIONS") :
    bindingFetch req run = .response
      { status := 200,
        headers := [("Access-Control-Allow-Origin", "*"),
                    ("Access-Control-Allow-Methods", "POST, OPTIONS"),
                    ("Access-Control-Allow-Headers", "Content-Type"),
                    ("Access-Control-Max-Age", "86400")],
        body := .empty } ∧
    rawFetch req doFetch = .response
      { status := 200,
        headers := [("Access-Control-Allow-Origin", "*"),
                    ("Access-Control-Allow-Methods", "POST, OPTIONS"),
                    ("Access-Control-Allow-Headers", "Content-Type"),
                    ("Access-Control-Max-Age", "86400")],
        body := .empty } := by
  constructor <;>
    simp [bindingFetch, bindingStage, rawFetch, rawStage, validateCommon, h,
      preflightResponse, corsPreflightHeaders]

/-- Witness for C5 at a concrete OPTIONS request carrying a body. -/
theorem c5_preflight_exact_headers_witness :
    bindingFetch { method := "OPTIONS", body := some (Json.str "ignored") }
        (fun _ => .ok .null) = .response
      { status := 200,
        headers := [("Access-Control-Allow-Origin", "*"),
                    ("Access-Control-Allow-Methods", "POST, OPTIONS"),
                    ("Access-Control-Allow-Headers", "Content-Type"),
                    ("Access-Control-Max-Age", "86400")],
        body := .empty } :=
  (c5_preflight_exact_headers
    { method := "OPTIONS", body := some (Json.str "ignored") }
    (fun _ => .ok .null) (fun _ => .ok ⟨200, .ok .null⟩) rfl).1

/-- C6: for every request whose method is neither POST nor OPTIONS, both
handler variants return status 405 with the plain-text body
`Method Not Allowed`. -/
theorem c6_method_gate (req : Request)
    (run : AiInput → Except JsErr Json)
    (doFetch : RawPayload → Except JsErr FetchResponse)
    (h1 : req.method ≠ "POST") (h2 : req.method ≠ "OPTIONS") :
    bindingFetch req run =
      .response { status := 405, headers := [], body := .text "Method Not Allowed" } ∧
    rawFetch req doFetch =
      .response { status := 405, headers := [], body := .text "Method Not Allowed" } := by
  constructor <;>
    simp [bindingFetch, bindingStage, rawFetch, rawStage, validateCommon, h1, h2,
      methodNotAllowedResponse]

/-- Witness for C6 at a concrete DELETE request. -/
theorem c6_method_gate_witness :
    bindingFetch { method := "DELETE", body := none } (fun _ => .ok .null) =
      .response { status := 405, headers := [], body := .text "Method Not Allowed" } :=
  (c6_method_gate { method := "DELETE", body := none } (fun _ => .ok .null)
    (fun _ => .ok ⟨200, .ok .null⟩) (by decide) (by decide)).1

/-- C9: the handler is not total over arbitrary JSON bodies. A POST body
parsing to JSON `null` makes the destructuring `const { image, prompt } =
requestData` throw, and a truthy non-string `image` (here the number 5)
makes `image.startsWith` throw; in both variants the outcome is an
uncaught thrown error, not a 400 response. -/
theorem c9_handler_not_total :
    (∀ run, bindingFetch { method := "POST", body := some Json.null } run =
      .thrown destructureNullError) ∧
    (∀ doFetch, rawFetch { method := "POST", body := some Json.null } doFetch =
      .thrown destructureNullError) ∧
    (∀ run, bindingFetch
      { method := "POST",
        body := some (Json.obj [("image", Json.num 5), ("prompt", Json.str "x")]) } run =
      .thrown startsWithTypeError) ∧
    (∀ doFetch, rawFetch
      { method := "POST",
        body := some (Json.obj [("image", Json.num 5), ("prompt", Json.str "x")]) } doFetch =
      .thrown startsWithTypeError) :=
  ⟨fun _ => rfl, fun _ => rfl, fun _ => rfl, fun _ => rfl⟩

/-- Witness for C9 at one concrete downstream behaviour. -/
theorem c9_handler_not_total_witness :
    bindingFetch { method := "POST", body := some Json.null } (fun _ => .ok .null) =
      .thrown destructureNullError :=
  c9_handler_not_total.1 (fun _ => .ok .null)

/-- C10: field presence is checked before the data-URI format, so a POST
body whose `prompt` is missing or falsy and whose `image` is a malformed
(truthy, non-data-URI) string draws the 400 missing-field response, not
the invalid-format one, in both variants. -/
theorem c10_presence_before_format (req : Request) (fs : List (String × Json))
    (s : String)
    (run : AiInput → Except JsErr Json)
    (doFetch : RawPayload → Except JsErr FetchResponse)
    (h1 : req.method = "POST") (h2 : req.body = some (.obj fs))
    (h3 : truthyOpt (lookupField fs "prompt") = false)
    (h4 : lookupField fs "image" = some (.str s)) (_h5 : formatOk s = false) :
    bindingFetch req run = .response missingFieldResponse ∧
    rawFetch req doFetch = .response missingFieldResponse := by
  constructor <;>
    simp [bindingFetch, bindingStage, rawFetch, rawStage, validateCommon, h1, h2,
      getField, h3, h4]

/-- Witness for C10: a body with a malformed image and no prompt at all. -/
theorem c10_presence_before_format_witness :
    bindingFetch
      { method := "POST", body := some (.obj [("image", Json.str "not-a-data-uri")]) }
      (fun _ => .ok .null) = .response missingFieldResponse :=
  (c10_presence_before_format
    { method := "POST", body := some (.obj [("image", Json.str "not-a-data-uri")]) }
    [("image", Json.str "not-a-data-uri")] "not-a-data-uri"
    (fun _ => .ok .null) (fun _ => .ok ⟨200, .ok .null⟩)
    rfl rfl rfl rfl (by decide)).1

/-- C7: for a POST request with parseable JSON body whose `image` field is a
non-empty string and whose `prompt` is present and truthy, a failure of the
data-URI shape check (`startsWith 'data:image/'` and `includes ';base64,'`)
draws the 400 invalid-format response in both variants; when the check
succeeds, neither variant produces that response — the raw variant proceeds
to its payload and the binding variant proceeds to the decode step. -/
theorem c7_format_check (req : Request) (body : Json) (s : String)
    (run : AiInput → Except JsErr Json)
    (doFetch : RawPayload → Except JsErr FetchResponse)
    (h1 : req.method = "POST") (h2 : req.body = some body)
    (h3 : getField body "image" = some (.str s)) (h4 : s ≠ "")
    (h5 : truthyOpt (getField body "prompt") = true) :
    (formatOk s = false →
      bindingFetch req run = .response invalidFormatResponse ∧
      rawFetch req doFetch = .response invalidFormatResponse) ∧
    (formatOk s = true →
      (∃ p, rawStage req = .next p) ∧
      (bindingStage req = .response decodeFailResponse ∨
        ∃ i, bindingStage req = .next i)) := by
  have hbody : ∃ fs, body = Json.obj fs := by
    cases body <;> simp_all [getField]
  obtain ⟨fs, rfl⟩ := hbody
  have himg : truthyOpt (some (Json.str s)) = true := by
    simp [truthyOpt, truthy, h4]
  constructor
  · intro hfmt
    constructor <;>
      simp [bindingFetch, bindingStage, rawFetch, rawStage, validateCommon, h1, h2,
        h3, himg, h5, hfmt]
  · intro hfmt
    have hv : validateCommon req = .next ((getField (Json.obj fs) "prompt").getD .null, s) := by
      simp [validateCommon, h1, h2, h3, himg, h5, hfmt]
    constructor
    · exact ⟨{ role := "user", content := (getField (Json.obj fs) "prompt").getD .null,
               image := s }, by unfold rawStage; rw [hv]⟩
    · unfold bindingStage
      rw [hv]
      cases hdec : atob ((jsSplit s ",")[1]?.getD "") with
      | none => exact Or.inl (by simp [hdec])
      | some bytes =>
        exact Or.inr ⟨{ role := "user",
                        content := (getField (Json.obj fs) "prompt").getD .null,
                        image := bytes, max_tokens := 512 }, by simp [hdec]⟩

/-- Witness for C7: a malformed image string draws the invalid-format 400
in both variants. -/
theorem c7_format_check_witness :
    bindingFetch
        { method := "POST",
          body := some (.obj [("image", Json.str "not:a-data-uri"), ("prompt", Json.str "x")]) }
        (fun _ => .ok .null) = .response invalidFormatResponse ∧
    rawFetch
        { method := "POST",
          body := some (.obj [("image", Json.str "not:a-data-uri"), ("prompt", Json.str "x")]) }
        (fun _ => .ok ⟨200, .ok .null⟩) = .response invalidFormatResponse :=
  (c7_format_check
    { method := "POST",
      body := some (.obj [("image", Json.str "not:a-data-uri"), ("prompt", Json.str "x")]) }
    (.obj [("image", Json.str "not:a-data-uri"), ("prompt", Json.str "x")])
    "not:a-data-uri" (fun _ => .ok .null) (fun _ => .ok ⟨200, .ok .null⟩)
    rfl rfl rfl (by decide) rfl).1 (by decide)

/-- C4: for every POST request that reaches the downstream invocation, a
successful downstream result is relayed verbatim: status 200, the
downstream JSON value as the body, and the CORS origin header among the
response headers — in both variants. -/
theorem c4_success_relay (req : Request)
    (run : AiInput → Except JsErr Json)
    (doFetch : RawPayload → Except JsErr FetchResponse)
    (i : AiInput) (p : RawPayload) (resp : FetchResponse) (j j2 : Json)
    (hb : bindingStage req = .next i) (hr : run i = .ok j)
    (hp : rawStage req = .next p) (hf : doFetch p = .ok resp)
    (hok : respOk resp = true) (hj : resp.jsonBody = .ok j2) :
    bindingFetch req run =
      .response { status := 200, headers := jsonHeaders, body := .json j } ∧
    rawFetch req doFetch =
      .response { status := 200, headers := jsonHeaders, body := .json j2 } ∧
    ("Access-Control-Allow-Origin", "*") ∈ jsonHeaders := by
  refine ⟨?_, ?_, by decide⟩
  · simp [bindingFetch, hb, hr, bindingDownstream, successResponse]
  · simp [rawFetch, hp, hf, hok, hj, rawDownstream, successResponse]

/-- Witness for C4: the spec's own example — a stubbed downstream returning
`{description: "a cat"}` is relayed with status 200. -/
theorem c4_success_relay_witness :
    bindingFetch
        { method := "POST",
          body := some (.obj [("image", Json.str "data:image/png;base64,QQ=="),
                              ("prompt", Json.str "describe")]) }
        (fun _ => .ok (.obj [("description", Json.str "a cat")])) =
      .response { status := 200, headers := jsonHeaders,
                  body := .json (.obj [("description", Json.str "a cat")]) } :=
  (c4_success_relay
    { method := "POST",
      body := some (.obj [("image", Json.str "data:image/png;base64,QQ=="),
                          ("prompt", Json.str "describe")]) }
    (fun _ => .ok (.obj [("description", Json.str "a cat")]))
    (fun _ => .ok ⟨200, .ok (.obj [("description", Json.str "a cat")])⟩)
    { role := "user", content := Json.str "describe", image := [65], max_tokens := 512 }
    { role := "user", content := Json.str "describe",
      image := "data:image/png;base64,QQ==" }
    ⟨200, .ok (.obj [("description", Json.str "a cat")])⟩
    (.obj [("description", Json.str "a cat")]) (.obj [("description", Json.str "a cat")])
    rfl rfl rfl rfl rfl rfl).1

/-- C1 fails on the code: a POST request supplying `max_tokens: 100` reaches
the binding variant's downstream invocation with `max_tokens` equal to the
hard-coded 512, not the supplied 100. -/
theorem c1_counterexample :
    bindingStage
        { method := "POST",
          body := some (.obj [("image", Json.str "data:image/png;base64,QQ=="),
                              ("prompt", Json.str "x"),
                              ("max_tokens", Json.num 100)]) } =
      .next { role := "user", content := Json.str "x", image := [65],
              max_tokens := 512 } ∧
    (512 : Int) ≠ 100 :=
  ⟨rfl, by decide⟩

/-- C1 (amended): the binding variant's downstream call always receives
`max_tokens = 512`; any request-supplied `max_tokens` is ignored (and the
raw-HTTPS variant's payload carries no `max_tokens` field at all). -/
theorem c1_max_tokens_hardcoded (req : Request) (i : AiInput)
    (h : bindingStage req = .next i) : i.max_tokens = 512 := by
  unfold bindingStage at h
  split at h <;> try exact Step.noConfusion h
  split at h
  · exact Step.noConfusion h
  · injection h with h
    subst h
    rfl

/-- Witness for the amended C1 at a concrete valid POST request. -/
theorem c1_max_tokens_hardcoded_witness :
    AiInput.max_tokens
        { role := "user", content := Json.str "x", image := [65], max_tokens := 512 } =
      512 :=
  c1_max_tokens_hardcoded
    { method := "POST",
      body := some (.obj [("image", Json.str "data:image/png;base64,QQ=="),
                          ("prompt", Json.str "x")]) }
    { role := "user", content := Json.str "x", image := [65], max_tokens := 512 }
    rfl

/-- C2 fails on the code: the 405 method rejection carries no headers at
all, so a GET request draws a response without the CORS origin header. -/
theorem c2_counterexample :
    bindingFetch { method := "GET", body := none } (fun _ => .ok .null) =
      .response methodNotAllowedResponse ∧
    ("Access-Control-Allow-Origin", "*") ∉ methodNotAllowedResponse.headers :=
  ⟨rfl, by decide⟩

/-- C2 (amended): every response either handler variant produces carries
`Access-Control-Allow-Origin: *` — except the plain-text 405 method
rejection, which carries no headers. -/
theorem c2_cors_header_except_405 (req : Request)
    (run : AiInput → Except JsErr Json)
    (doFetch : RawPayload → Except JsErr FetchResponse)
    (rb rr : Response) :
    (bindingFetch req run = .response rb →
      ("Access-Control-Allow-Origin", "*") ∈ rb.headers ∨
        rb = methodNotAllowedResponse) ∧
    (rawFetch req doFetch = .response rr →
      ("Access-Control-Allow-Origin", "*") ∈ rr.headers ∨
        rr = methodNotAllowedResponse) := by
  have hjson : ("Access-Control-Allow-Origin", "*") ∈ jsonHeaders := by decide
  have hpre : ("Access-Control-Allow-Origin", "*") ∈ corsPreflightHeaders := by decide
  constructor
  · intro h
    unfold bindingFetch at h
    split at h
    case h_1 r0 heq =>
      injection h with h
      subst h
      rcases bindingStage_response_cases req r0 heq with h1 | h1 | h1 | h1 | h1 | h1 <;>
        subst h1 <;>
        first
          | exact Or.inr rfl
          | exact Or.inl hpre
          | exact Or.inl hjson
    case h_2 e0 heq => exact Outcome.noConfusion h
    case h_3 i0 heq =>
      injection h with h
      subst h
      exact Or.inl (by rw [bindingDownstream_headers]; exact hjson)
  · intro h
    unfold rawFetch at h
    split at h
    case h_1 r0 heq =>
      injection h with h
      subst h
      rcases rawStage_response_cases req r0 heq with h1 | h1 | h1 | h1 | h1 <;>
        subst h1 <;>
        first
          | exact Or.inr rfl
          | exact Or.inl hpre
          | exact Or.inl hjson
    case h_2 e0 heq => exact Outcome.noConfusion h
    case h_3 p heq =>
      injection h with h
      subst h
      exact Or.inl (by rw [rawDownstream_headers]; exact hjson)

/-- Witness for the amended C2: the invalid-JSON 400 of a POST with
unparsable body carries the CORS origin header. -/
theorem c2_cors_header_except_405_witness :
    ("Access-Control-Allow-Origin", "*") ∈ invalidJsonResponse.headers ∨
      invalidJsonResponse = methodNotAllowedResponse :=
  (c2_cors_header_except_405 { method := "POST", body := none } (fun _ => .ok .null)
    (fun _ => .ok ⟨200, .ok .null⟩) invalidJsonResponse invalidJsonResponse).1 rfl

/-- C8 fails on the code: for an image string with a second comma, the
substring after the first comma (`"QQ==,!"`) is not decodable base64, so
the claim predicts the 400 decode-failure response; the code instead
decodes only `split(',')[1]` (`"QQ=="`, the piece between the first and
second comma) and proceeds to the downstream invocation with its bytes. -/
theorem c8_counterexample :
    specSubstrAfterFirstComma "data:image/png;base64,QQ==,!" = "QQ==,!" ∧
    atob "QQ==,!" = none ∧
    bindingStage
        { method := "POST",
          body := some (.obj [("image", Json.str "data:image/png;base64,QQ==,!"),
                              ("prompt", Json.str "x")]) } =
      .next { role := "user", content := Json.str "x", image := [65],
              max_tokens := 512 } :=
  ⟨rfl, rfl, rfl⟩

/-- C8 (amended): in the binding variant, the piece of the image string
between the first and the second comma (`image.split(',')[1]`) is
base64-decoded; a decode failure yields the 400 decode-failure response,
and a success passes the decoded bytes downstream. The raw-HTTPS variant
performs no decoding and forwards the image string unchanged. -/
theorem c8_decode_step (req : Request) (body : Json) (s : String)
    (run : AiInput → Except JsErr Json)
    (h1 : req.method = "POST") (h2 : req.body = some body)
    (h3 : getField body "image" = some (.str s))
    (h5 : truthyOpt (getField body "prompt") = true)
    (h6 : formatOk s = true) :
    (atob ((jsSplit s ",")[1]?.getD "") = none →
      bindingFetch req run = .response decodeFailResponse) ∧
    (∀ bytes, atob ((jsSplit s ",")[1]?.getD "") = some bytes →
      bindingStage req = .next { role := "user",
                                 content := (getField body "prompt").getD .null,
                                 image := bytes, max_tokens := 512 }) ∧
    rawStage req = .next { role := "user",
                           content := (getField body "prompt").getD .null,
                           image := s } := by
  have h4 : s ≠ "" := by
    intro he
    subst he
    exact absurd h6 (by decide)
  have hbody : ∃ fs, body = Json.obj fs := by
    cases body <;> simp_all [getField]
  obtain ⟨fs, rfl⟩ := hbody
  have himg : truthyOpt (some (Json.str s)) = true := by
    simp [truthyOpt, truthy, h4]
  have hv : validateCommon req = .next ((getField (Json.obj fs) "prompt").getD .null, s) := by
    simp [validateCommon, h1, h2, h3, himg, h5, h6]
  refine ⟨?_, ?_, ?_⟩
  · intro hdec
    unfold bindingFetch bindingStage
    rw [hv]
    simp [hdec]
  · intro bytes hdec
    unfold bindingStage
    rw [hv]
    simp [hdec]
  · unfold rawStage
    rw [hv]

/-- Witness for the amended C8 at a concrete decodable image. -/
theorem c8_decode_step_witness :
    bindingStage
        { method := "POST",
          body := some (.obj [("image", Json.str "data:image/png;base64,QUJD"),
                              ("prompt", Json.str "x")]) } =
      .next { role := "user", content := Json.str "x", image := [65, 66, 67],
              max_tokens := 512 } :=
  ((c8_decode_step
    { method := "POST",
      body := some (.obj [("image", Json.str "data:image/png;base64,QUJD"),
                          ("prompt", Json.str "x")]) }
    (.obj [("image", Json.str "data:image/png;base64,QUJD"), ("prompt", Json.str "x")])
    "data:image/png;base64,QUJD" (fun _ => .ok .null)
    rfl rfl rfl rfl (by decide)).2.1) [65, 66, 67] rfl

/-- C3 fails on the code: when the downstream fetch of the raw variant
returns a non-success status whose body is not parseable JSON, the
rejecting `json()` call lands in the catch block, so the handler answers
500 with the internal-server-error body — neither the downstream's
original 502 status nor an `AI model error:` message. -/
theorem c3_counterexample :
    rawFetch
        { method := "POST",
          body := some (.obj [("image", Json.str "data:image/png;base64,QQ=="),
                              ("prompt", Json.str "x")]) }
        (fun _ => .ok ⟨502, .error (.errObj (some (.str "Unexpected token")))⟩) =
      .response { status := 500, headers := jsonHeaders,
                  body := .json (.obj
                    [("message",
                      Json.str "Internal server error while processing request"),
                     ("error", Json.str "Unexpected token")]) } ∧
    (500 : Nat) ≠ 502 :=
  ⟨rfl, by decide⟩

/-- C3 (amended): when the binding variant's downstream call throws, the
handler answers 500 with `AI model error: <details>`, where the details
are the thrown string itself, or the error's truthy `message`, or a
generic fallback. When the raw variant's downstream fetch returns a
non-success status whose body parses as non-null JSON, the handler passes
the downstream's own status through with `AI model error: <details>`,
the details taken from the `message` of the first entry of the payload's
`errors` list (generic fallback when absent or falsy); when that body is
not parseable JSON the handler instead answers 500 with the
internal-server-error body. -/
theorem c3_downstream_error_behaviour :
    (∀ (req : Request) (run : AiInput → Except JsErr Json) (i : AiInput) (e : JsErr),
      bindingStage req = .next i → run i = .error e →
      bindingFetch req run =
        .response { status := 500, headers := jsonHeaders,
                    body := msgBody ("AI model error: " ++ bindingErrMsg e) }) ∧
    (∀ (req : Request) (doFetch : RawPayload → Except JsErr FetchResponse)
        (p : RawPayload) (resp : FetchResponse) (errorData : Json),
      rawStage req = .next p → doFetch p = .ok resp → respOk resp = false →
      resp.jsonBody = .ok errorData → errorData ≠ .null →
      rawFetch req doFetch =
        .response { status := resp.status, headers := jsonHeaders,
                    body := msgBody ("AI model error: " ++ rawErrMsg errorData) }) ∧
    (∀ (req : Request) (doFetch : RawPayload → Except JsErr FetchResponse)
        (p : RawPayload) (resp : FetchResponse) (e : JsErr),
      rawStage req = .next p → doFetch p = .ok resp → resp.jsonBody = .error e →
      rawFetch req doFetch = .response (internalErrorResponse e) ∧
        (internalErrorResponse e).status = 500) := by
  refine ⟨?_, ?_, ?_⟩
  · intro req run i e hb hr
    simp [bindingFetch, hb, hr, bindingDownstream, bindingErrorResponse,
      jsonMessageResponse]
  · intro req doFetch p resp errorData hp hf hok hjb hnull
    cases errorData <;>
      first
        | exact absurd rfl hnull
        | simp [rawFetch, hp, hf, rawDownstream, hok, hjb, rawErrorResponse,
            jsonMessageResponse]
  · intro req doFetch p resp e hp hf hjb
    refine ⟨?_, rfl⟩
    by_cases hok : respOk resp = true <;>
      simp [rawFetch, hp, hf, rawDownstream, hok, hjb]

/-- Witness for the amended C3: a thrown binding error, a 502 with JSON
error payload, and a 502 with unparsable body, each at a concrete valid
request. -/
theorem c3_downstream_error_behaviour_witness :
    bindingFetch
        { method := "POST",
          body := some (.obj [("image", Json.str "data:image/png;base64,QQ=="),
                              ("prompt", Json.str "x")]) }
        (fun _ => .error (.errObj (some (.str "boom")))) =
      .response { status := 500, headers := jsonHeaders,
                  body := msgBody "AI model error: boom" } ∧
    rawFetch
        { method := "POST",
          body := some (.obj [("image", Json.str "data:image/png;base64,QQ=="),
                              ("prompt", Json.str "x")]) }
        (fun _ => .ok ⟨502,
          .ok (.obj [("errors", Json.arr [Json.obj [("message", Json.str "bad model")]])])⟩) =
      .response { status := 502, headers := jsonHeaders,
                  body := msgBody "AI model error: bad model" } ∧
    rawFetch
        { method := "POST",
          body := some (.obj [("image", Json.str "data:image/png;base64,QQ=="),
                              ("prompt", Json.str "x")]) }
        (fun _ => .ok ⟨503, .error (.errObj none)⟩) =
      .response (internalErrorResponse (.errObj none)) := by
  refine ⟨?_, ?_, ?_⟩
  · exact c3_downstream_error_behaviour.1 _ _
      { role := "user", content := Json.str "x", image := [65], max_tokens := 512 }
      (.errObj (some (.str "boom"))) rfl rfl
  · exact c3_downstream_error_behaviour.2.1 _ _
      { role := "user", content := Json.str "x", image := "data:image/png;base64,QQ==" }
      ⟨502, .ok (.obj [("errors", Json.arr [Json.obj [("message", Json.str "bad model")]])])⟩
      (.obj [("errors", Json.arr [Json.obj [("message", Json.str "bad model")]])])
      rfl rfl rfl rfl (by simp)
  · exact (c3_downstream_error_behaviour.2.2
      { method := "POST",
        body := some (.obj [("image", Json.str "data:image/png;base64,QQ=="),
                            ("prompt", Json.str "x")]) }
      (fun _ => .ok ⟨503, .error (.errObj none)⟩)
      { role := "user", content := Json.str "x", image := "data:image/png;base64,QQ==" }
      ⟨503, .error (.errObj none)⟩ (.errObj none) rfl rfl rfl).1

end ImageToText
